import Mathlib

/-!
Shallow embedding of the WheelX SDK quote-to-transaction core.

The TypeScript implementation (`src/typescript/src/transaction.ts`) is the
primary source: `TransactionExecutor.buildTransaction` (the Filler),
`waitForTransaction` (confirmation waiting) and `executeQuoteTransaction`.
The Go implementation (`src/go/wheelx/wheelx_sdk.go`) contributes
`BuildTransaction` and `BuildEIP1559Transaction`.

JavaScript numbers and bigints that hold transaction quantities are modelled
as `Nat`; optional fields as `Option Nat`.  Each `await` on the ethers
provider is modelled as reading a field of an explicit `Provider` record,
and the list of chain queries performed is returned alongside the result so
that "no chain query happens" claims are expressible.  Thrown
`TransactionError`s become `Except.error`.
-/

deriving instance DecidableEq for Except

namespace WheelX

/-- JavaScript truthiness of an optional numeric field (`undefined`, `0` and
`0n` are falsy; any other number is truthy).  Used where the source tests a
field with `if (x)` / `x && y`. -/
def truthy (o : Option Nat) : Bool :=
  match o with
  | none => false
  | some n => n != 0

/-- `Tx` from `types.ts`: the transaction data carried by a quote. -/
structure Tx where
  «to» : String
  value : Nat
  data : String
  chainId : Option Nat := none
  gas : Option Nat := none
  maxFeePerGas : Option Nat := none
  maxPriorityFeePerGas : Option Nat := none
deriving DecidableEq, Repr

/-- `TransactionConfig` from `types.ts`: caller overrides. -/
structure TransactionConfig where
  gasLimit : Option Nat := none
  maxFeePerGas : Option Nat := none
  maxPriorityFeePerGas : Option Nat := none
  nonce : Option Nat := none
deriving DecidableEq, Repr

/-- `TransactionError` from `errors.ts` (only the message matters to the
executor). -/
structure TransactionError where
  message : String
deriving DecidableEq, Repr

/-- The fields of an `ethers.TransactionRequest` that `buildTransaction`
populates.  A field holding `none` is absent (or `null`) in the result. -/
structure FilledTx where
  «to» : String
  value : Nat
  data : String
  chainId : Option Nat := none
  nonce : Option Nat := none
  gasPrice : Option Nat := none
  maxFeePerGas : Option Nat := none
  maxPriorityFeePerGas : Option Nat := none
  gasLimit : Option Nat := none
deriving DecidableEq, Repr

/-- The result of `provider.getFeeData()`; only the `gasPrice` field is read
by the source (it may be `null` on the wire, hence `Option`). -/
structure FeeData where
  gasPrice : Option Nat
deriving DecidableEq, Repr

/-- The chain queries `buildTransaction` can perform on the provider. -/
inductive ChainQuery where
  | getTransactionCount
  | getFeeData
  | estimateGas
deriving DecidableEq, Repr

/-- Ethereum block tags relevant to `eth_getTransactionCount`: `latest`
counts only the account's confirmed transactions, `pending` also counts
already-submitted-but-unconfirmed ones. -/
inductive BlockTag where
  | latest
  | pending
deriving DecidableEq, Repr

/-- The ethers provider as a chain-capability oracle: each field is the
response the chain returns to the corresponding query during this call.
`transactionCount` is the account transaction count per block tag;
`estimateGas` receives the partially built request spread together with the
`from` address, exactly as the source passes `{...transaction, from}`. -/
structure Provider where
  transactionCount : BlockTag → Nat
  getFeeData : FeeData
  estimateGas : FilledTx → String → Except String Nat

/-- Modelled from the ethers API: `provider.getTransactionCount(address,
blockTag?)` resolves an omitted `blockTag` to `"latest"`, so a call with no
blockTag — as in `transaction.ts:48` — returns the confirmed transaction
count, not the pending one. -/
def Provider.getTransactionCount (p : Provider) (tag : Option BlockTag) : Nat :=
  p.transactionCount (tag.getD BlockTag.latest)

/-- The `// Override with custom config` block at the end of
`buildTransaction`: caller fee overrides are applied field by field when
truthy.  Note the source does not clear `gasPrice` here. -/
def applyFeeOverrides (config : TransactionConfig) (tx : FilledTx) : FilledTx :=
  let tx1 := if truthy config.maxFeePerGas then
      { tx with maxFeePerGas := config.maxFeePerGas } else tx
  if truthy config.maxPriorityFeePerGas then
    { tx1 with maxPriorityFeePerGas := config.maxPriorityFeePerGas } else tx1

/-- The `// Handle gas limit` block of `buildTransaction`: caller override
when truthy, else quote `gas` when truthy, else the chain's estimate against
the transaction built so far together with the `from` address (exactly the
`{...transaction, from}` the source spreads); an estimation failure is
rethrown as a `TransactionError`. -/
def gasLimitStep (txData : Tx) (config : TransactionConfig) (provider : Provider)
    (transaction : FilledTx) (fromAddress : String) :
    Except TransactionError FilledTx × List ChainQuery :=
  if truthy config.gasLimit then
    (Except.ok { transaction with gasLimit := config.gasLimit }, [])
  else if truthy txData.gas then
    (Except.ok { transaction with gasLimit := txData.gas }, [])
  else
    match provider.estimateGas transaction fromAddress with
    | Except.ok g =>
        (Except.ok { transaction with gasLimit := some g },
          [ChainQuery.estimateGas])
    | Except.error e =>
        (Except.error ⟨"Failed to estimate gas: " ++ e⟩,
          [ChainQuery.estimateGas])

/-- `TransactionExecutor.buildTransaction` from `transaction.ts`.
`signer` is the executor's optional signer (its value is never used while
building, only its presence is tested).  Returns the built request or the
thrown `TransactionError`, paired with the list of chain queries performed,
in order. -/
def buildTransaction (signer : Option Unit) (txData : Tx) (fromAddress : String)
    (config : TransactionConfig) (provider : Provider) :
    Except TransactionError FilledTx × List ChainQuery :=
  if signer.isNone then
    (Except.error ⟨"Signer is required for transaction building"⟩, [])
  else
    let tx0 : FilledTx :=
      { «to» := txData.«to», value := txData.value, data := txData.data,
        chainId := txData.chainId }
    -- Get nonce if not provided (`config.nonce === undefined` is a presence
    -- test, so an explicit `0` override is honoured)
    let nonceStep : Nat × List ChainQuery :=
      match config.nonce with
      | none => (provider.getTransactionCount none, [ChainQuery.getTransactionCount])
      | some n => (n, [])
    let tx1 : FilledTx := { tx0 with nonce := some nonceStep.1 }
    -- Handle gas parameters
    let feeStep : FilledTx × List ChainQuery :=
      if truthy txData.maxFeePerGas && truthy txData.maxPriorityFeePerGas then
        ({ tx1 with maxFeePerGas := txData.maxFeePerGas,
                    maxPriorityFeePerGas := txData.maxPriorityFeePerGas }, [])
      else
        ({ tx1 with gasPrice := provider.getFeeData.gasPrice },
          [ChainQuery.getFeeData])
    let queries := nonceStep.2 ++ feeStep.2
    -- Handle gas limit, then override with custom config
    match gasLimitStep txData config provider feeStep.1 fromAddress with
    | (Except.ok t, qs) =>
        (Except.ok (applyFeeOverrides config t), queries ++ qs)
    | (Except.error e, qs) => (Except.error e, queries ++ qs)

/-- A transaction receipt; the source only inspects `status`. -/
structure Receipt where
  status : Nat
deriving DecidableEq, Repr

/-- `TransactionExecutor.waitForTransaction` from `transaction.ts`.
`pollResult` is the outcome of `provider.waitForTransaction`: `Except.error`
when the provider rejects (e.g. its wait times out), `Except.ok none` when it
resolves without a receipt, `Except.ok (some r)` when a receipt arrives. -/
def waitForTransaction (pollResult : Except String (Option Receipt)) :
    Except TransactionError Receipt :=
  match pollResult with
  | Except.error e => Except.error ⟨"Failed to wait for transaction: " ++ e⟩
  | Except.ok none => Except.error ⟨"Transaction receipt not found"⟩
  | Except.ok (some r) =>
      if r.status = 0 then Except.error ⟨"Transaction failed"⟩
      else Except.ok r

/-- `ApproveAction` from `types.ts`. -/
structure ApprovalAction where
  token : String
  spender : String
  amount : Nat
deriving DecidableEq, Repr

/-- The terminal confirmation states of the spec's Confirmation Poller. -/
inductive ConfirmationResult where
  | pending
  | confirmed (blockNumber : Nat)
  | failed (reason : String)
  | timedOut
deriving DecidableEq, Repr

/-- Which transaction a submission event concerns. -/
inductive SubmitEvent where
  | approvalTx
  | mainTx
deriving DecidableEq, Repr

/-- Errors of the spec's execute path. -/
inductive ExecError where
  | approvalFailed (reason : String)
  | approvalNotConfirmed
deriving DecidableEq, Repr

/-- Outcome of the execute path: which transactions were handed to the
Submitter, in order, and the overall result. -/
structure ExecOutcome where
  submits : List SubmitEvent
  result : Except ExecError ConfirmationResult
deriving DecidableEq, Repr

/-- Modelled from the spec: the Approval Coordinator and the `execute` entry
point (spec sections 4.3 and 6) are not implemented under `src/` — the
repository only declares the `ApproveAction` data type (`types.ts`,
`wheelx_sdk.go`) and prints it in examples.  Per the spec, when an
`ApprovalAction` is present `execute` submits the approval transaction and
waits for its terminal confirmation before the main transaction; on `Failed`
it aborts with `ApprovalFailedError` and the main transaction is never
attempted.  `approvalResult` and `mainResult` stand for the terminal
confirmation the poller returns for each submission. -/
def execute (approval : Option ApprovalAction)
    (approvalResult : ConfirmationResult) (mainResult : ConfirmationResult) :
    ExecOutcome :=
  match approval with
  | none => { submits := [SubmitEvent.mainTx], result := Except.ok mainResult }
  | some _ =>
    match approvalResult with
    | ConfirmationResult.confirmed _ =>
        { submits := [SubmitEvent.approvalTx, SubmitEvent.mainTx],
          result := Except.ok mainResult }
    | ConfirmationResult.failed r =>
        { submits := [SubmitEvent.approvalTx],
          result := Except.error (ExecError.approvalFailed r) }
    | _ =>
        { submits := [SubmitEvent.approvalTx],
          result := Except.error ExecError.approvalNotConfirmed }

namespace Go

/-- `Tx` from `wheelx_sdk.go` restricted to the fields the builders read.
The source dereferences the `Gas` pointer unconditionally, so `gas` is
modelled as present. -/
structure Tx where
  «to» : String
  value : Nat
  data : String
  gas : Nat
deriving DecidableEq, Repr

/-- The go-ethereum client as a chain-capability oracle: the responses of
the queries the Go builders perform during one call. -/
structure Chain where
  pendingNonceAt : Nat
  suggestGasPrice : Nat
  chainID : Nat
  suggestGasTipCap : Nat
  latestBaseFee : Nat
deriving DecidableEq, Repr

/-- A go-ethereum `LegacyTx`. -/
structure LegacyTx where
  nonce : Nat
  «to» : String
  value : Nat
  gas : Nat
  gasPrice : Nat
  data : String
deriving DecidableEq, Repr

/-- A go-ethereum `DynamicFeeTx`. -/
structure DynamicFeeTx where
  chainID : Nat
  nonce : Nat
  gasTipCap : Nat
  gasFeeCap : Nat
  gas : Nat
  «to» : String
  value : Nat
  data : String
deriving DecidableEq, Repr

/-- `TransactionExecutor.BuildTransaction` from `wheelx_sdk.go`: pending
nonce and suggested gas price from the chain, the rest from the quote. -/
def BuildTransaction (c : Chain) (txData : Tx) : LegacyTx :=
  { nonce := c.pendingNonceAt, «to» := txData.«to», value := txData.value,
    gas := txData.gas, gasPrice := c.suggestGasPrice, data := txData.data }

/-- `TransactionExecutor.BuildEIP1559Transaction` from `wheelx_sdk.go`:
`baseFee := header.BaseFee * 2; gasFeeCap := gasTipCap + baseFee`. -/
def BuildEIP1559Transaction (c : Chain) (txData : Tx) : DynamicFeeTx :=
  { chainID := c.chainID, nonce := c.pendingNonceAt,
    gasTipCap := c.suggestGasTipCap,
    gasFeeCap := c.suggestGasTipCap + c.latestBaseFee * 2,
    gas := txData.gas, «to» := txData.«to», value := txData.value,
    data := txData.data }

end Go

end WheelX

namespace WheelX

/-- A quote transaction with no fee fields (the pricing service omitted
`maxFeePerGas`/`maxPriorityFeePerGas`), carrying a quote-supplied gas of
50000. -/
def sampleQuote : Tx :=
  { «to» := "0xRouter", value := 1000000, data := "0xdeadbeef",
    chainId := some 1, gas := some 50000 }

/-- The same quote with both dynamic fee fields present and non-zero. -/
def dynamicQuote : Tx :=
  { sampleQuote with maxFeePerGas := some 30, maxPriorityFeePerGas := some 2 }

/-- The same quote with no quote-supplied gas, forcing estimation. -/
def noGasQuote : Tx := { sampleQuote with gas := none }

/-- A provider whose queries answer: transaction count 7, fee-data gas price
5, gas estimate 90000. -/
def sampleProvider : Provider :=
  { transactionCount := fun _ => 7, getFeeData := ⟨some 5⟩,
    estimateGas := fun _ _ => Except.ok 90000 }

/-- A second provider record returning the same query results as
`sampleProvider`. -/
def sampleProviderB : Provider :=
  { transactionCount := fun _ => 7, getFeeData := ⟨some 5⟩,
    estimateGas := fun _ _ => Except.ok 90000 }

/-- A provider whose gas estimation call fails (e.g. the call would
revert). -/
def failProvider : Provider :=
  { transactionCount := fun _ => 7, getFeeData := ⟨some 5⟩,
    estimateGas := fun _ _ => Except.error "execution reverted" }

/-- A provider whose confirmed (`latest`) transaction count is 3 while two
further transactions are already submitted but unconfirmed, so the
`pending` count is 5. -/
def nonceProvider : Provider :=
  { transactionCount := fun tag =>
      match tag with
      | BlockTag.latest => 3
      | BlockTag.pending => 5,
    getFeeData := ⟨some 5⟩,
    estimateGas := fun _ _ => Except.ok 90000 }

end WheelX

namespace WheelX

lemma applyFeeOverrides_to (cfg : TransactionConfig) (t : FilledTx) :
    (applyFeeOverrides cfg t).«to» = t.«to» := by
  simp only [applyFeeOverrides]; split <;> split <;> rfl

lemma applyFeeOverrides_value (cfg : TransactionConfig) (t : FilledTx) :
    (applyFeeOverrides cfg t).value = t.value := by
  simp only [applyFeeOverrides]; split <;> split <;> rfl

lemma applyFeeOverrides_data (cfg : TransactionConfig) (t : FilledTx) :
    (applyFeeOverrides cfg t).data = t.data := by
  simp only [applyFeeOverrides]; split <;> split <;> rfl

lemma applyFeeOverrides_chainId (cfg : TransactionConfig) (t : FilledTx) :
    (applyFeeOverrides cfg t).chainId = t.chainId := by
  simp only [applyFeeOverrides]; split <;> split <;> rfl

lemma applyFeeOverrides_nonce (cfg : TransactionConfig) (t : FilledTx) :
    (applyFeeOverrides cfg t).nonce = t.nonce := by
  simp only [applyFeeOverrides]; split <;> split <;> rfl

lemma applyFeeOverrides_gasPrice (cfg : TransactionConfig) (t : FilledTx) :
    (applyFeeOverrides cfg t).gasPrice = t.gasPrice := by
  simp only [applyFeeOverrides]; split <;> split <;> rfl

lemma applyFeeOverrides_gasLimit (cfg : TransactionConfig) (t : FilledTx) :
    (applyFeeOverrides cfg t).gasLimit = t.gasLimit := by
  simp only [applyFeeOverrides]; split <;> split <;> rfl

lemma applyFeeOverrides_maxFee (cfg : TransactionConfig) (t : FilledTx) :
    (applyFeeOverrides cfg t).maxFeePerGas
      = (if truthy cfg.maxFeePerGas then cfg.maxFeePerGas else t.maxFeePerGas) := by
  simp only [applyFeeOverrides]; split <;> split <;> simp_all

lemma applyFeeOverrides_maxPriorityFee (cfg : TransactionConfig) (t : FilledTx) :
    (applyFeeOverrides cfg t).maxPriorityFeePerGas
      = (if truthy cfg.maxPriorityFeePerGas then cfg.maxPriorityFeePerGas
          else t.maxPriorityFeePerGas) := by
  simp only [applyFeeOverrides]; split <;> split <;> simp_all

lemma gasLimitStep_ok (q : Tx) (cfg : TransactionConfig) (p : Provider)
    (t : FilledTx) (a : String) (r : FilledTx)
    (h : (gasLimitStep q cfg p t a).1 = Except.ok r) :
    r.«to» = t.«to» ∧ r.value = t.value ∧ r.data = t.data
    ∧ r.chainId = t.chainId ∧ r.nonce = t.nonce ∧ r.gasPrice = t.gasPrice
    ∧ r.maxFeePerGas = t.maxFeePerGas
    ∧ r.maxPriorityFeePerGas = t.maxPriorityFeePerGas
    ∧ (truthy cfg.gasLimit = true → r.gasLimit = cfg.gasLimit)
    ∧ (truthy cfg.gasLimit = false → truthy q.gas = true → r.gasLimit = q.gas)
    ∧ (truthy cfg.gasLimit = false → truthy q.gas = false →
        ∃ g, p.estimateGas t a = Except.ok g ∧ r.gasLimit = some g) := by
  simp only [gasLimitStep] at h
  split at h
  · simp only [Except.ok.injEq] at h
    subst h
    simp_all
  · split at h
    · simp only [Except.ok.injEq] at h
      subst h
      simp_all
    · split at h
      · simp only [Except.ok.injEq] at h
        subst h
        rename_i hgl hqg g hest
        simp_all
      · simp at h

lemma buildTransaction_ok_destruct (s : Unit) (q : Tx) (a : String)
    (cfg : TransactionConfig) (p : Provider) (tx : FilledTx)
    (h : (buildTransaction (some s) q a cfg p).1 = Except.ok tx) :
    ∃ t, (gasLimitStep q cfg p
        { «to» := q.«to», value := q.value, data := q.data,
          chainId := q.chainId,
          nonce := some (cfg.nonce.getD (p.getTransactionCount none)),
          gasPrice := if truthy q.maxFeePerGas && truthy q.maxPriorityFeePerGas
            then none else p.getFeeData.gasPrice,
          maxFeePerGas := if truthy q.maxFeePerGas && truthy q.maxPriorityFeePerGas
            then q.maxFeePerGas else none,
          maxPriorityFeePerGas :=
            if truthy q.maxFeePerGas && truthy q.maxPriorityFeePerGas
            then q.maxPriorityFeePerGas else none,
          gasLimit := none } a).1 = Except.ok t
      ∧ tx = applyFeeOverrides cfg t := by
  cases hn : cfg.nonce with
  | none =>
    by_cases hfee : (truthy q.maxFeePerGas && truthy q.maxPriorityFeePerGas) = true
    · simp only [buildTransaction, hn, Option.isNone_some, Bool.false_eq_true,
        if_false, hfee, if_true] at h
      split at h
      · rename_i t qs heq
        simp only [Except.ok.injEq] at h
        subst h
        refine ⟨t, ?_, rfl⟩
        simp only [Bool.not_eq_true] at hfee
        simp only [hfee]
        exact congrArg Prod.fst heq
      · rename_i e qs heq
        simp at h
    · simp only [buildTransaction, hn, Option.isNone_some, Bool.false_eq_true,
        if_false, hfee] at h
      split at h
      · rename_i t qs heq
        simp only [Except.ok.injEq] at h
        subst h
        refine ⟨t, ?_, rfl⟩
        simp only [Bool.not_eq_true] at hfee
        simp only [hfee]
        exact congrArg Prod.fst heq
      · rename_i e qs heq
        simp at h
  | some n =>
    by_cases hfee : (truthy q.maxFeePerGas && truthy q.maxPriorityFeePerGas) = true
    · simp only [buildTransaction, hn, Option.isNone_some, Bool.false_eq_true,
        if_false, hfee, if_true] at h
      split at h
      · rename_i t qs heq
        simp only [Except.ok.injEq] at h
        subst h
        refine ⟨t, ?_, rfl⟩
        simp only [Bool.not_eq_true] at hfee
        simp only [hfee]
        exact congrArg Prod.fst heq
      · rename_i e qs heq
        simp at h
    · simp only [buildTransaction, hn, Option.isNone_some, Bool.false_eq_true,
        if_false, hfee] at h
      split at h
      · rename_i t qs heq
        simp only [Except.ok.injEq] at h
        subst h
        refine ⟨t, ?_, rfl⟩
        simp only [Bool.not_eq_true] at hfee
        simp only [hfee]
        exact congrArg Prod.fst heq
      · rename_i e qs heq
        simp at h

lemma buildTransaction_ok_fields (s : Unit) (q : Tx) (a : String)
    (cfg : TransactionConfig) (p : Provider) (tx : FilledTx)
    (h : (buildTransaction (some s) q a cfg p).1 = Except.ok tx) :
    tx.«to» = q.«to» ∧ tx.value = q.value ∧ tx.data = q.data
    ∧ tx.chainId = q.chainId
    ∧ tx.nonce = some (cfg.nonce.getD (p.getTransactionCount none))
    ∧ tx.gasPrice =
        (if truthy q.maxFeePerGas && truthy q.maxPriorityFeePerGas then none
          else p.getFeeData.gasPrice)
    ∧ tx.maxFeePerGas =
        (if truthy cfg.maxFeePerGas then cfg.maxFeePerGas
          else if truthy q.maxFeePerGas && truthy q.maxPriorityFeePerGas then
            q.maxFeePerGas
          else none)
    ∧ tx.maxPriorityFeePerGas =
        (if truthy cfg.maxPriorityFeePerGas then cfg.maxPriorityFeePerGas
          else if truthy q.maxFeePerGas && truthy q.maxPriorityFeePerGas then
            q.maxPriorityFeePerGas
          else none)
    ∧ (truthy cfg.gasLimit = true → tx.gasLimit = cfg.gasLimit)
    ∧ (truthy cfg.gasLimit = false → truthy q.gas = true → tx.gasLimit = q.gas)
    ∧ (truthy cfg.gasLimit = false → truthy q.gas = false →
        ∃ skel g, p.estimateGas skel a = Except.ok g
          ∧ skel.«to» = q.«to» ∧ skel.value = q.value ∧ skel.data = q.data
          ∧ tx.gasLimit = some g) := by
  obtain ⟨t, hgs, rfl⟩ := buildTransaction_ok_destruct s q a cfg p tx h
  obtain ⟨g1, g2, g3, g4, g5, g6, g7, g8, g9, g10, g11⟩ :=
    gasLimitStep_ok q cfg p _ a t hgs
  refine ⟨?_, ?_, ?_, ?_, ?_, ?_, ?_, ?_, ?_, ?_, ?_⟩
  · rw [applyFeeOverrides_to, g1]
  · rw [applyFeeOverrides_value, g2]
  · rw [applyFeeOverrides_data, g3]
  · rw [applyFeeOverrides_chainId, g4]
  · rw [applyFeeOverrides_nonce, g5]
  · rw [applyFeeOverrides_gasPrice, g6]
  · rw [applyFeeOverrides_maxFee, g7]
  · rw [applyFeeOverrides_maxPriorityFee, g8]
  · intro h1
    rw [applyFeeOverrides_gasLimit]
    exact g9 h1
  · intro h1 h2
    rw [applyFeeOverrides_gasLimit]
    exact g10 h1 h2
  · intro h1 h2
    obtain ⟨g, hg, hL⟩ := g11 h1 h2
    exact ⟨_, g, hg, rfl, rfl, rfl, by rw [applyFeeOverrides_gasLimit, hL]⟩

lemma gasLimitStep_queries (q : Tx) (cfg : TransactionConfig) (p : Provider)
    (t : FilledTx) (a : String) :
    ChainQuery.getFeeData ∉ (gasLimitStep q cfg p t a).2 := by
  simp only [gasLimitStep]
  split
  · simp
  · split
    · simp
    · split <;> simp

lemma buildTransaction_no_feeData_query (s : Option Unit) (q : Tx) (a : String)
    (cfg : TransactionConfig) (p : Provider)
    (hq : (truthy q.maxFeePerGas && truthy q.maxPriorityFeePerGas) = true) :
    ChainQuery.getFeeData ∉ (buildTransaction s q a cfg p).2 := by
  cases s with
  | none => simp [buildTransaction]
  | some s =>
    cases hn : cfg.nonce <;>
      simp only [buildTransaction, hn, Option.isNone_some, Bool.false_eq_true,
        if_false, hq, if_true] <;>
      split <;>
      rename_i x1 x2 heq <;>
      intro hmem <;>
      rcases List.mem_append.mp hmem with h1 | h2 <;>
      first
        | simp at h1
        | exact (congrArg Prod.snd heq ▸ gasLimitStep_queries q cfg p _ a) h2

lemma string_data_append (x y : String) : (x ++ y).data = x.data ++ y.data := by
  cases x; cases y; rfl

lemma gas_message_ne (m : String) :
    ("Failed to estimate gas: " ++ m) ≠ "Signer is required for transaction building" := by
  intro hcontra
  have hd := congrArg String.data hcontra
  rw [string_data_append] at hd
  have e1 : ("Failed to estimate gas: ").data
      = 'F' :: ("ailed to estimate gas: ").data := by decide
  have e2 : ("Signer is required for transaction building").data
      = 'S' :: ("igner is required for transaction building").data := by decide
  rw [e1, List.cons_append, e2] at hd
  injection hd with hhead htail
  exact absurd hhead (by decide)

lemma gasLimitStep_error_shape (q : Tx) (cfg : TransactionConfig) (p : Provider)
    (t : FilledTx) (a : String) (e : TransactionError)
    (h : (gasLimitStep q cfg p t a).1 = Except.error e) :
    ∃ m, e = ⟨"Failed to estimate gas: " ++ m⟩ := by
  simp only [gasLimitStep] at h
  split at h
  · simp at h
  · split at h
    · simp at h
    · split at h
      · simp at h
      · rename_i m hest
        simp only [Except.error.injEq] at h
        exact ⟨m, h.symm⟩

lemma buildTransaction_error_shape (s : Unit) (q : Tx) (a : String)
    (cfg : TransactionConfig) (p : Provider) (e : TransactionError)
    (h : (buildTransaction (some s) q a cfg p).1 = Except.error e) :
    ∃ m, e = ⟨"Failed to estimate gas: " ++ m⟩ := by
  cases hn : cfg.nonce <;>
    by_cases hfee : (truthy q.maxFeePerGas && truthy q.maxPriorityFeePerGas) = true <;>
    simp only [buildTransaction, hn, Option.isNone_some, Bool.false_eq_true,
      if_false, hfee, if_true] at h <;>
    split at h <;>
    rename_i x1 x2 heq <;>
    simp only [Except.error.injEq] at h
  all_goals
    first
      | exact absurd h (by simp)
      | (subst h
         exact gasLimitStep_error_shape q cfg p _ a _ (congrArg Prod.fst heq))

end WheelX

namespace WheelX

/-- Claim C1 (evidence of the code violating the exclusivity invariant): for
the quote `sampleQuote`, which carries no dynamic fee fields so the legacy
branch sets `gasPrice` from `getFeeData`, a caller config overriding
`maxFeePerGas` with 100 yields a built transaction in which the legacy
`gasPrice` (5) and the dynamic `maxFeePerGas` (100) are populated
simultaneously — the override block never clears `gasPrice`. -/
theorem buildTransaction_mixes_legacy_and_dynamic_fees :
    ∃ tx : FilledTx,
      (buildTransaction (some ()) sampleQuote "0xSender"
          { maxFeePerGas := some 100 } sampleProvider).1 = Except.ok tx
      ∧ tx.gasPrice = some 5 ∧ tx.maxFeePerGas = some 100 :=
  ⟨_, rfl, rfl, rfl⟩

/-- Claim C2: for every quote whose `maxFeePerGas` and `maxPriorityFeePerGas`
are both present and non-zero, `buildTransaction` performs no `getFeeData`
chain query, and (absent caller fee overrides) copies the two quote values
verbatim into the result, leaving `gasPrice` unset. -/
theorem buildTransaction_dynamic_fields_verbatim (s : Option Unit) (q : Tx)
    (a : String) (cfg : TransactionConfig) (p : Provider) (f pr : Nat)
    (hf : q.maxFeePerGas = some f) (hf0 : f ≠ 0)
    (hp : q.maxPriorityFeePerGas = some pr) (hp0 : pr ≠ 0) :
    ChainQuery.getFeeData ∉ (buildTransaction s q a cfg p).2
    ∧ (cfg.maxFeePerGas = none → cfg.maxPriorityFeePerGas = none →
        ∀ tx, (buildTransaction s q a cfg p).1 = Except.ok tx →
          tx.maxFeePerGas = some f ∧ tx.maxPriorityFeePerGas = some pr
          ∧ tx.gasPrice = none) := by
  have hq : (truthy q.maxFeePerGas && truthy q.maxPriorityFeePerGas) = true := by
    simp [truthy, hf, hp, hf0, hp0]
  refine ⟨buildTransaction_no_feeData_query s q a cfg p hq, ?_⟩
  intro hcf hcp tx h
  cases s with
  | none => simp [buildTransaction] at h
  | some s =>
    obtain ⟨_, _, _, _, _, g6, g7, g8, _, _, _⟩ :=
      buildTransaction_ok_fields s q a cfg p tx h
    refine ⟨?_, ?_, ?_⟩
    · rw [g7, hcf, hq]; simp [truthy, hf]
    · rw [g8, hcp, hq]; simp [truthy, hp]
    · rw [g6, hq]; simp

/-- Witness for the dynamic-fee claim on a concrete quote with
`maxFeePerGas = 30` and `maxPriorityFeePerGas = 2`. -/
theorem buildTransaction_dynamic_fields_verbatim_witness :
    ∃ tx, (buildTransaction (some ()) dynamicQuote "0xSender" {} sampleProvider).1
        = Except.ok tx
      ∧ tx.maxFeePerGas = some 30 ∧ tx.maxPriorityFeePerGas = some 2
      ∧ tx.gasPrice = none := by
  have h := (buildTransaction_dynamic_fields_verbatim (some ()) dynamicQuote
    "0xSender" {} sampleProvider 30 2 rfl (by decide) rfl (by decide)).2 rfl rfl
  exact ⟨_, rfl, h _ rfl⟩

/-- Claim C3, counterexample: for the quote `sampleQuote`, which supplies no
fee fields, the TypeScript `buildTransaction` does not choose the dynamic
model — `maxFeePerGas` stays unset (so it cannot equal `2*baseFee +
priorityFee` for any base or priority fee) and the legacy `gasPrice` is
populated from `getFeeData` instead. -/
theorem buildTransaction_no_fee_fields_not_dynamic_cex :
    ∃ tx, (buildTransaction (some ()) sampleQuote "0xSender" {} sampleProvider).1
        = Except.ok tx
      ∧ tx.maxFeePerGas = none ∧ tx.maxPriorityFeePerGas = none
      ∧ tx.gasPrice = some 5 :=
  ⟨_, rfl, rfl, rfl, rfl⟩

/-- Claim C3, amended: for every quote with no fee fields (and no caller fee
overrides) the TypeScript `buildTransaction` chooses the legacy model with
`gasPrice` taken from the chain's fee-data query at call time, dynamic fields
unset; the `2*baseFee + priorityFee` computation is the Go SDK's
`BuildEIP1559Transaction`, whose `gasFeeCap` always equals that formula for
the chain's suggested tip and latest base fee. -/
theorem buildTransaction_no_fee_fields_legacy (s : Unit) (q : Tx) (a : String)
    (cfg : TransactionConfig) (p : Provider) (tx : FilledTx)
    (hqf : q.maxFeePerGas = none) (hqp : q.maxPriorityFeePerGas = none)
    (hcf : cfg.maxFeePerGas = none) (hcp : cfg.maxPriorityFeePerGas = none)
    (h : (buildTransaction (some s) q a cfg p).1 = Except.ok tx) :
    (tx.gasPrice = p.getFeeData.gasPrice ∧ tx.maxFeePerGas = none
      ∧ tx.maxPriorityFeePerGas = none)
    ∧ ∀ (c : Go.Chain) (gq : Go.Tx),
        (Go.BuildEIP1559Transaction c gq).gasFeeCap
          = 2 * c.latestBaseFee + c.suggestGasTipCap := by
  have hq : (truthy q.maxFeePerGas && truthy q.maxPriorityFeePerGas) = false := by
    simp [truthy, hqf]
  obtain ⟨_, _, _, _, _, g6, g7, g8, _, _, _⟩ :=
    buildTransaction_ok_fields s q a cfg p tx h
  refine ⟨⟨?_, ?_, ?_⟩, ?_⟩
  · rw [g6, hq]; simp
  · rw [g7, hcf, hq]; simp [truthy]
  · rw [g8, hcp, hq]; simp [truthy]
  · intro c gq
    show c.suggestGasTipCap + c.latestBaseFee * 2
      = 2 * c.latestBaseFee + c.suggestGasTipCap
    omega

/-- Witness for the amended no-fee-fields claim at a concrete quote and
provider. -/
theorem buildTransaction_no_fee_fields_legacy_witness :
    ∃ tx, (buildTransaction (some ()) sampleQuote "0xSender" {} sampleProvider).1
        = Except.ok tx
      ∧ tx.gasPrice = sampleProvider.getFeeData.gasPrice := by
  have h := buildTransaction_no_fee_fields_legacy () sampleQuote "0xSender" {}
    sampleProvider _ rfl rfl rfl rfl rfl
  exact ⟨_, rfl, h.1.1⟩

/-- Claim C4 (against the spec-modelled execute path): when the quote carries
an `ApprovalAction` and the approval transaction confirms as `Failed`, the
execute path aborts with `ApprovalFailedError` and the Submitter is never
invoked for the main transaction. -/
theorem execute_approval_failed_never_submits_main (act : ApprovalAction)
    (r : String) (m : ConfirmationResult) :
    (execute (some act) (ConfirmationResult.failed r) m).result
      = Except.error (ExecError.approvalFailed r)
    ∧ SubmitEvent.mainTx ∉ (execute (some act) (ConfirmationResult.failed r) m).submits := by
  refine ⟨rfl, ?_⟩
  simp [execute]

/-- Claim C5, counterexample: against a provider whose confirmed (`latest`)
transaction count is 3 while the `pending` count is 5 (two transactions
already submitted but unconfirmed), a fill with no nonce override carries
nonce 3 — the `latest` count returned by the blockTag-less
`getTransactionCount` call — and not the pending count 5 the claim
requires. -/
theorem buildTransaction_nonce_latest_cex :
    ∃ tx, (buildTransaction (some ()) sampleQuote "0xSender" {} nonceProvider).1
        = Except.ok tx
      ∧ tx.nonce = some (nonceProvider.transactionCount BlockTag.latest)
      ∧ tx.nonce ≠ some (nonceProvider.transactionCount BlockTag.pending) :=
  ⟨_, rfl, rfl, by decide⟩

/-- Claim C5, amended: the nonce of a successfully built transaction is the
caller's override when one is given (including an explicit 0, since the
source tests presence with `=== undefined`); otherwise it is the account
transaction count the provider returns for the default block tag — the
source passes no blockTag to `getTransactionCount`, which ethers resolves to
`latest`, the confirmed count that does not include
already-submitted-but-unconfirmed transactions.  Only the Go
`BuildTransaction` takes its nonce from the chain's pending-nonce query. -/
theorem buildTransaction_nonce_latest (s : Unit) (q : Tx) (a : String)
    (cfg : TransactionConfig) (p : Provider) (tx : FilledTx)
    (h : (buildTransaction (some s) q a cfg p).1 = Except.ok tx) :
    tx.nonce = some (cfg.nonce.getD (p.transactionCount BlockTag.latest))
    ∧ ∀ (c : Go.Chain) (gq : Go.Tx),
        (Go.BuildTransaction c gq).nonce = c.pendingNonceAt := by
  obtain ⟨_, _, _, _, g5, _, _, _, _, _, _⟩ :=
    buildTransaction_ok_fields s q a cfg p tx h
  exact ⟨g5, fun c gq => rfl⟩

/-- Witness for the amended nonce claim: no override gives the provider's
`latest` count (3, despite a pending count of 5), a concrete override of 9
is used verbatim. -/
theorem buildTransaction_nonce_latest_witness :
    (∃ tx, (buildTransaction (some ()) sampleQuote "0xSender" {} nonceProvider).1
        = Except.ok tx ∧ tx.nonce = some 3)
    ∧ ∃ tx, (buildTransaction (some ()) sampleQuote "0xSender" { nonce := some 9 }
        nonceProvider).1 = Except.ok tx ∧ tx.nonce = some 9 := by
  constructor
  · have h := buildTransaction_nonce_latest () sampleQuote "0xSender" {}
      nonceProvider _ rfl
    exact ⟨_, rfl, h.1⟩
  · have h := buildTransaction_nonce_latest () sampleQuote "0xSender"
      { nonce := some 9 } nonceProvider _ rfl
    exact ⟨_, rfl, h.1⟩

/-- Claim C6: the gas limit of a successfully built transaction follows the
precedence caller override (when truthy), else quote `gas` (when truthy),
else the chain's estimate for a request carrying the exact quote
`to`/`value`/`data` and the sender address; concretely, a caller override of
21000 beats a quote gas of 50000. -/
theorem buildTransaction_gasLimit_precedence :
    (∀ (s : Unit) (q : Tx) (a : String) (cfg : TransactionConfig)
        (p : Provider) (tx : FilledTx),
        (buildTransaction (some s) q a cfg p).1 = Except.ok tx →
        (truthy cfg.gasLimit = true → tx.gasLimit = cfg.gasLimit)
        ∧ (truthy cfg.gasLimit = false → truthy q.gas = true →
            tx.gasLimit = q.gas)
        ∧ (truthy cfg.gasLimit = false → truthy q.gas = false →
            ∃ skel g, p.estimateGas skel a = Except.ok g
              ∧ skel.«to» = q.«to» ∧ skel.value = q.value ∧ skel.data = q.data
              ∧ tx.gasLimit = some g))
    ∧ ∃ tx, (buildTransaction (some ()) sampleQuote "0xSender"
          { gasLimit := some 21000 } sampleProvider).1 = Except.ok tx
        ∧ tx.gasLimit = some 21000 := by
  constructor
  · intro s q a cfg p tx h
    obtain ⟨_, _, _, _, _, _, _, _, g9, g10, g11⟩ :=
      buildTransaction_ok_fields s q a cfg p tx h
    exact ⟨g9, g10, g11⟩
  · exact ⟨_, rfl, rfl⟩

/-- Witness for the gas-limit precedence claim at the concrete
21000-override / 50000-quote scenario. -/
theorem buildTransaction_gasLimit_precedence_witness :
    ∃ tx, (buildTransaction (some ()) sampleQuote "0xSender"
        { gasLimit := some 21000 } sampleProvider).1 = Except.ok tx
      ∧ tx.gasLimit = ({ gasLimit := some 21000 } : TransactionConfig).gasLimit := by
  have h := (buildTransaction_gasLimit_precedence.1 () sampleQuote "0xSender"
    { gasLimit := some 21000 } sampleProvider _ rfl).1 (by decide)
  exact ⟨_, rfl, h⟩

/-- Claim C7, counterexample: when the receipt never becomes available —
whether the provider's wait rejects with a timeout or resolves with no
receipt — `waitForTransaction` raises a `TransactionError` (an `Except.error`
outcome), not a non-error `TimedOut` result. -/
theorem waitForTransaction_timeout_raises_cex :
    waitForTransaction (Except.error "timeout")
      = Except.error ⟨"Failed to wait for transaction: timeout"⟩
    ∧ waitForTransaction (Except.ok none)
      = Except.error ⟨"Transaction receipt not found"⟩ :=
  ⟨rfl, rfl⟩

/-- Claim C7, amended: if the receipt never becomes available within the
timeout, `waitForTransaction` raises a `TransactionError` wrapping the
provider's rejection reason, or `Transaction receipt not found` when the
provider resolves without a receipt; the code defines no non-error
`TimedOut` state. -/
theorem waitForTransaction_timeout_raises (e : String) :
    waitForTransaction (Except.error e)
      = Except.error ⟨"Failed to wait for transaction: " ++ e⟩
    ∧ waitForTransaction (Except.ok none)
      = Except.error ⟨"Transaction receipt not found"⟩ :=
  ⟨rfl, rfl⟩

/-- Claim C8: `buildTransaction` is deterministic — two providers returning
identical query results (transaction count, fee data, and pointwise-equal gas
estimates) produce identical results and traces for every signer, quote,
sender and config; there is no hidden randomness. -/
theorem buildTransaction_deterministic (p1 p2 : Provider)
    (h1 : ∀ tag, p1.transactionCount tag = p2.transactionCount tag)
    (h2 : p1.getFeeData = p2.getFeeData)
    (h3 : ∀ t fa, p1.estimateGas t fa = p2.estimateGas t fa)
    (s : Option Unit) (q : Tx) (a : String) (cfg : TransactionConfig) :
    buildTransaction s q a cfg p1 = buildTransaction s q a cfg p2 := by
  have h1f : p1.transactionCount = p2.transactionCount :=
    funext fun tag => h1 tag
  have h3f : p1.estimateGas = p2.estimateGas :=
    funext fun t => funext fun fa => h3 t fa
  have hp : p1 = p2 := by
    cases p1; cases p2; simp_all
  rw [hp]

/-- Witness for determinism: two separately defined providers with the same
query responses yield the same fill. -/
theorem buildTransaction_deterministic_witness :
    buildTransaction (some ()) sampleQuote "0xSender" {} sampleProvider
      = buildTransaction (some ()) sampleQuote "0xSender" {} sampleProviderB :=
  buildTransaction_deterministic sampleProvider sampleProviderB (fun _ => rfl)
    rfl (fun _ _ => rfl) (some ()) sampleQuote "0xSender" {}

/-- Claim C9: without a signer, `buildTransaction` always fails with the
error message `Signer is required for transaction building`; with a signer
set, that error is unreachable — any error the build can produce is a gas
estimation failure, whose message differs. -/
theorem buildTransaction_signer_required :
    (∀ (q : Tx) (a : String) (cfg : TransactionConfig) (p : Provider),
        (buildTransaction none q a cfg p).1
          = Except.error ⟨"Signer is required for transaction building"⟩)
    ∧ ∀ (s : Unit) (q : Tx) (a : String) (cfg : TransactionConfig)
        (p : Provider) (e : TransactionError),
        (buildTransaction (some s) q a cfg p).1 = Except.error e →
        e ≠ ⟨"Signer is required for transaction building"⟩ := by
  constructor
  · intro q a cfg p
    rfl
  · intro s q a cfg p e h
    obtain ⟨m, rfl⟩ := buildTransaction_error_shape s q a cfg p e h
    intro hcontra
    exact gas_message_ne m (congrArg TransactionError.message hcontra)

/-- Witness for the signer-required claim: the concrete signerless failure
and a concrete estimation failure whose error differs from the signer
error. -/
theorem buildTransaction_signer_required_witness :
    (buildTransaction none sampleQuote "0xSender" {} sampleProvider).1
      = Except.error ⟨"Signer is required for transaction building"⟩
    ∧ (⟨"Failed to estimate gas: execution reverted"⟩ : TransactionError)
      ≠ ⟨"Signer is required for transaction building"⟩ :=
  ⟨buildTransaction_signer_required.1 sampleQuote "0xSender" {} sampleProvider,
    buildTransaction_signer_required.2 () noGasQuote "0xSender" {} failProvider
      ⟨"Failed to estimate gas: execution reverted"⟩ rfl⟩

/-- Claim C10: a caller override equal to zero is treated as absent, because
the source tests overrides for truthiness — a config with `gasLimit = 0`,
`maxFeePerGas = 0` or `maxPriorityFeePerGas = 0` builds exactly the same
transaction as one omitting the field. -/
theorem buildTransaction_zero_overrides_ignored (s : Option Unit) (q : Tx)
    (a : String) (cfg : TransactionConfig) (p : Provider) :
    buildTransaction s q a { cfg with gasLimit := some 0 } p
      = buildTransaction s q a { cfg with gasLimit := none } p
    ∧ buildTransaction s q a { cfg with maxFeePerGas := some 0 } p
      = buildTransaction s q a { cfg with maxFeePerGas := none } p
    ∧ buildTransaction s q a { cfg with maxPriorityFeePerGas := some 0 } p
      = buildTransaction s q a { cfg with maxPriorityFeePerGas := none } p := by
  obtain ⟨gl, mf, mpf, nn⟩ := cfg
  refine ⟨?_, ?_, ?_⟩ <;>
    cases s <;>
    simp [buildTransaction, gasLimitStep, applyFeeOverrides, truthy]

end WheelX
